import Mathlib

/-
Verification development for the symbolic expression algebra of
SymbolicMath.go, centred on the constant-vector type KVector
(src/symbolic/constant_vector.go) and the dimension-checking and
constraint-construction discipline around it.

Numeric values (Go float64 and the scalar constant type K) are embedded as
exact rationals: the supplied numeric type is treated as an exact field,
which is the idealization under which the specification states its
algebraic laws (commutativity, associativity, exact linearization).

Go panics are embedded as structured errors in an Except monad: an
operation that panics in Go returns .error here, and an operation that
returns a value returns .ok.
-/

set_option autoImplicit false

deriving instance DecidableEq for Except

namespace Symbolic

/-- Modelled from the spec: the scalar constant type K (Go: type K float64,
not under src/), a single numeric value, embedded as an exact rational. -/
abbrev K := ℚ

/-- The supplied linear-algebra library dense vector (gonum mat.VecDense),
modelled as its list of stored entries. -/
abbrev VecDense := List ℚ

/-- The supplied linear-algebra library dense matrix (gonum mat.Dense),
modelled as its list of rows. -/
abbrev MatDense := List (List ℚ)

/-- The supplied library elementwise vector addition (VecDense.AddVec). -/
def vecAdd (v w : VecDense) : VecDense :=
  List.zipWith (fun a b => a + b) v w

/-- The supplied library scalar scaling of a vector (VecDense.ScaleVec):
every entry of v is multiplied by c. -/
def scaleVec (c : ℚ) (v : VecDense) : VecDense :=
  v.map (fun x => c * x)

/-- The supplied library matrix-vector product, row by row: the solver-facing
layer multiplies a coefficient matrix by the global variable vector (spec S6). -/
def matVecMul (m : MatDense) (x : VecDense) : VecDense :=
  m.map (fun row => (List.zipWith (fun a b => a * b) row x).sum)

/-- Modelled from the spec: the scalar Variable type (not under src/),
an atomic symbolic unknown identified by a process-unique integer ID.
A zero-value Variable (ID 0) is uninitialized and invalid (spec S3). -/
structure Variable where
  ID : ℕ
deriving DecidableEq

/-- Modelled from the spec: the VariableVector type (not under src/), an
ordered sequence of Variable with an Elements field (as used by the tests). -/
structure VariableVector where
  Elements : List Variable
deriving DecidableEq

/-- Length of a VariableVector, mirroring Len() on the Go type. -/
def VariableVector.Len (vv : VariableVector) : ℕ :=
  vv.Elements.length

/-- Modelled from the spec: the Monomial type (not under src/): a numeric
coefficient times an ordered sequence of (variable, exponent) factors. -/
structure Monomial where
  Coefficient : ℚ
  Factors : List (Variable × ℕ)
deriving DecidableEq

/-- Modelled from the spec: a Polynomial is a sum of Monomial terms. -/
abbrev Polynomial := List Monomial

/-- Modelled from the spec: a MonomialVector is a sequence of Monomial,
one per slot. -/
abbrev MonomialVector := List Monomial

/-- Modelled from the spec: a PolynomialVector is a sequence of Polynomial. -/
abbrev PolynomialVector := List Polynomial

/-- KVector (src/symbolic/constant_vector.go line 21): a constant expression
vector, an ordered sequence of K. -/
abbrev KVector := List K

/-- Len (constant_vector.go lines 28-30): the length of the KVector. -/
def KVector.Len (kv : KVector) : ℕ :=
  kv.length

/-- ToVecDense (constant_vector.go lines 415-421): converts the KVector to a
dense vector by copying each entry through the numeric cast. -/
def KVector.ToVecDense (kv : KVector) : VecDense :=
  kv.map (fun tempK => (tempK : ℚ))

/-- VecDenseToKVector (constant_vector.go lines 429-435): converts a dense
vector to a KVector by casting each stored entry to K. -/
def VecDenseToKVector (v : VecDense) : KVector :=
  v.map (fun x => (x : K))

/-- OnesVector (constant_vector.go lines 348-356): a vector of ones of the
given length. -/
def OnesVector (lengthIn : ℕ) : VecDense :=
  List.replicate lengthIn 1

/-- ZerosVector (constant_vector.go lines 365-373): a vector of zeros of the
given length. -/
def ZerosVector (lengthIn : ℕ) : VecDense :=
  List.replicate lengthIn 0

/-- Modelled from the spec: ZerosMatrix (not under src/); spec S4.2 requires
the LinearCoeff of a KVector of length N to be the N by N zero matrix, so
ZerosMatrix r c is the r by c all-zeros matrix. -/
def ZerosMatrix (r c : ℕ) : MatDense :=
  List.replicate r (List.replicate c 0)

/-- LinearCoeff (constant_vector.go lines 76-78): for a constant vector the
coefficient matrix is the zero matrix of size Len by Len. -/
def KVector.LinearCoeff (kv : KVector) : MatDense :=
  ZerosMatrix (KVector.Len kv) (KVector.Len kv)

/-- Constant (constant_vector.go lines 85-87): the additive constant of a
constant vector is the vector itself, as a dense vector. -/
def KVector.Constant (kv : KVector) : VecDense :=
  KVector.ToVecDense kv

/-- The closed set of expression variants reachable in this development
(spec S9 models the duck-typed variant handling as a tagged sum). -/
inductive Expression where
  | kE (k : K)
  | kvectorE (kv : KVector)
  | varvecE (vv : VariableVector)
  | monvecE (mv : MonomialVector)
  | polyvecE (pv : PolynomialVector)
deriving DecidableEq

/-- Structured errors (spec S7): a dimension violation carries the
operation name and both full operand values; other Go panics carry their
message string. -/
inductive SymError where
  | dimensionError (Operation : String) (Arg1 Arg2 : Expression)
  | genericError (msg : String)
deriving DecidableEq

/-- Rendering of an error as its Go message text, used when an element-level
fault is wrapped with index context (spec S4.3). -/
def SymError.message : SymError → String
  | .dimensionError op _ _ => "dimension error in operation " ++ op
  | .genericError s => s

/-- Modelled from the spec: Check on a scalar Variable (not under src/);
spec S3: the ID must be nonzero/initialized, a zero-value Variable fails. -/
def Variable.Check (v : Variable) : Option SymError :=
  if v.ID = 0 then
    some (.genericError "the variable has an ID of 0 which is not allowed")
  else
    none

/-- Element-level validity sweep (spec S4.3): test every element in order
and, on the first failing index i, produce an error whose message is
prefixed with the element index followed by the underlying cause. -/
def checkElementsFrom {A : Type} (check : A → Option SymError) :
    List A → ℕ → Option SymError
  | [], _ => none
  | a :: rest, i =>
    match check a with
    | some e =>
      some (.genericError ("element " ++ toString i ++ " has an issue: " ++ e.message))
    | none => checkElementsFrom check rest (i + 1)

/-- Modelled from the spec: Check on a VariableVector (not under src/);
spec S4.3: every element is itself checked, the first failing index is
reported with index context. -/
def VariableVector.Check (vv : VariableVector) : Option SymError :=
  checkElementsFrom Variable.Check vv.Elements 0

/-- Modelled from the spec: Check on a Monomial (not under src/): every
variable appearing in its factors must itself be valid. -/
def Monomial.Check (m : Monomial) : Option SymError :=
  checkElementsFrom Variable.Check (m.Factors.map Prod.fst) 0

/-- Modelled from the spec: Check on a Polynomial (not under src/): every
monomial term must itself be valid. -/
def Polynomial.Check (p : Polynomial) : Option SymError :=
  checkElementsFrom Monomial.Check p 0

/-- Modelled from the spec: Check on a MonomialVector (not under src/),
elementwise with index context (spec S4.3). -/
def MonomialVector.Check (mv : MonomialVector) : Option SymError :=
  checkElementsFrom Monomial.Check mv 0

/-- Modelled from the spec: Check on a PolynomialVector (not under src/),
elementwise with index context (spec S4.3). -/
def PolynomialVector.Check (pv : PolynomialVector) : Option SymError :=
  checkElementsFrom Polynomial.Check pv 0

/-- Check (constant_vector.go lines 39-41): a constant vector is always
well-defined, so the check always reports no error. -/
def KVector.Check (_kv : KVector) : Option SymError :=
  none

/-- Length reported by each expression variant (Len on vectors; a scalar
occupies a single slot). -/
def Expression.Len : Expression → ℕ
  | .kE _ => 1
  | .kvectorE kv => KVector.Len kv
  | .varvecE vv => VariableVector.Len vv
  | .monvecE mv => mv.length
  | .polyvecE pv => pv.length

/-- Whether the variant is a scalar expression (Dims [1,1]). -/
def Expression.IsScalar : Expression → Bool
  | .kE _ => true
  | _ => false

/-- Check dispatched over the expression variants. -/
def Expression.Check : Expression → Option SymError
  | .kE _ => none
  | .kvectorE kv => KVector.Check kv
  | .varvecE vv => VariableVector.Check vv
  | .monvecE mv => MonomialVector.Check mv
  | .polyvecE pv => PolynomialVector.Check pv

/-- The closed set of values a Go interface-typed operand can take at the
call sites translated here: raw numeric literal (float64), scalar constant K,
native dense vector, any vector expression variant, or an unrecognized value
(carrying only its printed type name). -/
inductive Operand where
  | float (c : ℚ)
  | k (c : K)
  | vecDense (v : VecDense)
  | kvector (kv : KVector)
  | varvec (vv : VariableVector)
  | monvec (mv : MonomialVector)
  | polyvec (pv : PolynomialVector)
  | other (typeName : String)
deriving DecidableEq

/-- Modelled from the spec: ToExpression (not under src/), the coercion
layer of spec S4.5: classify an arbitrary input as a numeric literal, a
native dense-vector value, or a recognized expression variant; an
unrecognized value is refused. -/
def ToExpression : Operand → Option Expression
  | .float c => some (.kE c)
  | .k c => some (.kE c)
  | .vecDense v => some (.kvectorE (VecDenseToKVector v))
  | .kvector kv => some (.kvectorE kv)
  | .varvec vv => some (.varvecE vv)
  | .monvec mv => some (.monvecE mv)
  | .polyvec pv => some (.polyvecE pv)
  | .other _ => none

/-- Modelled from the spec: IsExpression (not under src/), the predicate
corresponding to ToExpression (spec S4.5). -/
def IsExpression (rightIn : Operand) : Bool :=
  (ToExpression rightIn).isSome

/-- Modelled from the spec: smErrors.CheckDimensionsInAddition (not under
src/); spec S4.3: both operands must report equal Len, a violation yields
DimensionError with operation "Plus" carrying both full operand values.
A scalar operand is exempt: the variants broadcast scalars, as the float64
and K branches of KVector.Plus in the source show. -/
def CheckDimensionsInAddition (left right : Expression) : Option SymError :=
  if left.IsScalar || right.IsScalar then none
  else if left.Len = right.Len then none
  else some (.dimensionError "Plus" left right)

/-- Modelled from the spec: smErrors.CheckDimensionsInComparison (not under
src/); spec S4.3: operands must have equal Len, the sense is attached but
not evaluated; scalar operands are exempt as in addition. -/
def CheckDimensionsInComparison (left right : Expression) : Option SymError :=
  if left.IsScalar || right.IsScalar then none
  else if left.Len = right.Len then none
  else some (.dimensionError "Comparison" left right)

/-- Modelled from the spec: smErrors.CheckDimensionsInMultiplication (not
under src/); spec S4.3: scalar times anything is always valid, and the
rejection of vector-times-vector shapes is the capability decision of each
variant (a reduction the variant chooses to support), carried out by the
variant dispatch branches recorded in the source; the shared check
therefore reports no violation itself. -/
def CheckDimensionsInMultiplication (_left _right : Expression) : Option SymError :=
  none

/-- The Go panic-on-error guard: a non-nil error aborts the operation
immediately and no part of the continuation runs. -/
def guardCheck {A : Type} (e : Option SymError) (k : Except SymError A) :
    Except SymError A :=
  match e with
  | some err => .error err
  | none => k

/-- The guarded dimension check at the top of Plus (constant_vector.go lines
102-108): only when the operand is recognized as an expression is the
addition dimension check consulted. -/
def addGuards (left : Expression) (rightIn : Operand) : Option SymError :=
  match ToExpression rightIn with
  | some rightAsE => CheckDimensionsInAddition left rightAsE
  | none => none

/-- The guarded dimension check at the top of Multiply (constant_vector.go
lines 254-261). -/
def multiplyGuards (left : Expression) (rightIn : Operand) : Option SymError :=
  match ToExpression rightIn with
  | some rightAsE => CheckDimensionsInMultiplication left rightAsE
  | none => none

/-- The guarded checks at the top of Comparison (constant_vector.go lines
191-203): when the operand is an expression, its own Check runs first and
then the comparison dimension check. -/
def comparisonGuards (left : Expression) (rightIn : Operand) : Option SymError :=
  match ToExpression rightIn with
  | some rightAsE =>
    match rightAsE.Check with
    | some e => some e
    | none => CheckDimensionsInComparison left rightAsE
  | none => none

/-- Complexity rank of an operand used only to justify termination of the
source recursions (K delegates to float64, float64 and dense vectors
delegate to the KVector branch). -/
def Operand.rank : Operand → ℕ
  | .k _ => 2
  | .float _ => 1
  | .vecDense _ => 1
  | _ => 0

/-- The elementwise sum computed by the KVector branch of Plus
(constant_vector.go lines 130-137): both sides become dense vectors, the
library AddVec adds them, and the result is converted back to a KVector. -/
def addKVectors (kv right : KVector) : KVector :=
  VecDenseToKVector (vecAdd (KVector.ToVecDense kv) (KVector.ToVecDense right))

/-- Modelled from the spec: VariableVector.Plus (not under src/); spec S4.1
and S4.3 and the tests: the receiver is checked element by element, the
addition dimension check runs with the receiver as first operand, and the
symbolic elementwise sum is produced (each variable plus the matching
constant becomes a two-term polynomial slot). -/
def VariableVector.Plus (vv : VariableVector) (rightIn : Operand) :
    Except SymError Expression :=
  guardCheck (VariableVector.Check vv) <|
  guardCheck (addGuards (.varvecE vv) rightIn) <|
  match rightIn with
  | .kvector kv =>
    .ok (.polyvecE (List.zipWith
      (fun v c => [Monomial.mk 1 [(v, 1)], Monomial.mk c []])
      vv.Elements kv))
  | .varvec vv2 =>
    .ok (.polyvecE (List.zipWith
      (fun v w => [Monomial.mk 1 [(v, 1)], Monomial.mk 1 [(w, 1)]])
      vv.Elements vv2.Elements))
  | _ => .error (.genericError "unsupported operand in VariableVector.Plus model")

/-- Modelled from the spec: MonomialVector.Plus (not under src/); spec S4.1:
receiver check, addition dimension check, then the symbolic elementwise sum
(each monomial plus the matching constant becomes a two-term polynomial). -/
def MonomialVector.Plus (mv : MonomialVector) (rightIn : Operand) :
    Except SymError Expression :=
  guardCheck (MonomialVector.Check mv) <|
  guardCheck (addGuards (.monvecE mv) rightIn) <|
  match rightIn with
  | .kvector kv =>
    .ok (.polyvecE (List.zipWith (fun m c => [m, Monomial.mk c []]) mv kv))
  | _ => .error (.genericError "unsupported operand in MonomialVector.Plus model")

/-- Modelled from the spec: PolynomialVector.Plus (not under src/); spec
S4.1: receiver check, addition dimension check, then the symbolic
elementwise sum (the matching constant joins each polynomial as one more
monomial term). -/
def PolynomialVector.Plus (pv : PolynomialVector) (rightIn : Operand) :
    Except SymError Expression :=
  guardCheck (PolynomialVector.Check pv) <|
  guardCheck (addGuards (.polyvecE pv) rightIn) <|
  match rightIn with
  | .kvector kv =>
    .ok (.polyvecE (List.zipWith (fun p c => p ++ [Monomial.mk c []]) pv kv))
  | _ => .error (.genericError "unsupported operand in PolynomialVector.Plus model")

/-- Plus (constant_vector.go lines 95-152): checks the receiver, runs the
guarded addition dimension check, then dispatches on the operand type: a
float64 broadcasts through a scaled ones vector and re-enters Plus, a K
re-enters as float64, a dense vector re-enters as KVector, a KVector is
added elementwise through the library AddVec, and the more complex vector
variants receive the delegated call with arguments swapped; an unrecognized
type panics. -/
def KVector.Plus (kv : KVector) (rightIn : Operand) : Except SymError Expression :=
  guardCheck (KVector.Check kv) <|
  guardCheck (addGuards (.kvectorE kv) rightIn) <|
  match rightIn with
  | .float c =>
    KVector.Plus kv (.kvector (VecDenseToKVector (scaleVec c (OnesVector (KVector.Len kv)))))
  | .k c => KVector.Plus kv (.float c)
  | .vecDense v => KVector.Plus kv (.kvector (VecDenseToKVector v))
  | .kvector right => .ok (.kvectorE (addKVectors kv right))
  | .varvec right => VariableVector.Plus right (.kvector kv)
  | .monvec right => MonomialVector.Plus right (.kvector kv)
  | .polyvec right => PolynomialVector.Plus right (.kvector kv)
  | .other typeName =>
    .error (.genericError
      ("Unrecognized expression type " ++ typeName ++ " for addition of KVector!"))
termination_by Operand.rank rightIn
decreasing_by
  all_goals simp only [Operand.rank]
  all_goals omega

/-- The relational senses (spec S3): purely descriptive, never evaluated to
a boolean truth value by this core. -/
inductive ConstrSense where
  | SenseLessThanEqual
  | SenseGreaterThanEqual
  | SenseEqual
deriving DecidableEq

/-- VectorConstraint (spec S3): an immutable record of a comparison between
two vector expressions plus a relational sense; never mutated and never
evaluated. -/
structure VectorConstraint where
  LeftHandSide : Expression
  RightHandSide : Expression
  Sense : ConstrSense
deriving DecidableEq

/-- Modelled from the spec: VariableVector.Comparison (not under src/);
spec S4.4: runs Check on the receiver, coerces the operand, runs the
comparison dimension check, then constructs a VectorConstraint recording
the receiver as LeftHandSide, the operand as RightHandSide, and the sense. -/
def VariableVector.Comparison (vv : VariableVector) (rightIn : Operand)
    (sense : ConstrSense) : Except SymError VectorConstraint :=
  guardCheck (VariableVector.Check vv) <|
  guardCheck (comparisonGuards (.varvecE vv) rightIn) <|
  match ToExpression rightIn with
  | some rightAsE => .ok ⟨.varvecE vv, rightAsE, sense⟩
  | none => .error (.genericError "unrecognized input to VariableVector Comparison")

/-- Comparison (constant_vector.go lines 184-239): checks the receiver,
runs the guarded operand check and comparison dimension check, then
dispatches: a KVector operand is recorded directly in a VectorConstraint
with the receiver on the left (after a redundant inner length check), a
VariableVector operand receives the delegated call with arguments swapped,
and any other type panics. -/
def KVector.Comparison (kv : KVector) (rightIn : Operand) (sense : ConstrSense) :
    Except SymError VectorConstraint :=
  guardCheck (KVector.Check kv) <|
  guardCheck (comparisonGuards (.kvectorE kv) rightIn) <|
  match rightIn with
  | .kvector rhsConverted =>
    if KVector.Len kv ≠ KVector.Len rhsConverted then
      .error (.genericError
        ("The left hand side dimension (" ++ toString (KVector.Len kv)
          ++ ") and the right hand side dimension ("
          ++ toString (KVector.Len rhsConverted) ++ ") do not match!"))
    else
      .ok ⟨.kvectorE kv, .kvectorE rhsConverted, sense⟩
  | .varvec rhsConverted => VariableVector.Comparison rhsConverted (.kvector kv) sense
  | _ =>
    .error (.genericError "The input to the KVector comparison has unexpected type")

/-- The message of the panic in the KVector branch of Multiply
(constant_vector.go lines 286-292), with the Go type verb rendered. -/
def kvTimesKVectorMsg : String :=
  "dimension mismatch! Cannot multiply KVector with a vector of type symbolic.KVector; Try transposing one or the other!"

/-- The message of the panic in the VariableVector branch of Multiply
(constant_vector.go lines 293-298), with the Go type verb rendered. -/
def kvTimesVarVectorMsg : String :=
  "dimension mismatch! Cannot multiply KVector with a vector of type symbolic.VariableVector; Try transposing one or the other!"

/-- Multiply (constant_vector.go lines 247-307): checks the receiver, runs
the guarded multiplication dimension check, then dispatches: a float64
scales every entry through the library ScaleVec, a K re-enters as float64,
a dense vector panics because the result would be a matrix, a KVector or
VariableVector operand panics with the transpose suggestion, and any other
type panics as unexpected. -/
def KVector.Multiply (kv : KVector) (rightIn : Operand) : Except SymError Expression :=
  guardCheck (KVector.Check kv) <|
  guardCheck (multiplyGuards (.kvectorE kv) rightIn) <|
  match rightIn with
  | .float c => .ok (.kvectorE (VecDenseToKVector (scaleVec c (KVector.ToVecDense kv))))
  | .k c => KVector.Multiply kv (.float c)
  | .vecDense _ =>
    .error (.genericError
      "MatProInterface does not currently support operations that result in matrices! if you want this feature, create an issue!")
  | .kvector _ => .error (.genericError kvTimesKVectorMsg)
  | .varvec _ => .error (.genericError kvTimesVarVectorMsg)
  | _ =>
    .error (.genericError "The input to the KVectorTranspose Multiply method has unexpected type")
termination_by Operand.rank rightIn
decreasing_by
  all_goals simp only [Operand.rank]
  all_goals omega

/-- The supplied library element access (gonum mat.VecDense.AtVec): an index
outside the bounds of the vector makes the library panic, an index inside
returns the stored entry. -/
def vecDenseAtVec (v : VecDense) (i : ℤ) : Except SymError ℚ :=
  if 0 ≤ i ∧ i < (v.length : ℤ) then
    .ok (v.getD i.toNat 0)
  else
    .error (.genericError "mat: row access out of bounds")

/-- AtVec (constant_vector.go lines 49-58): the out-of-range guard in the
source has an empty body (a TODO), so control always falls through to the
library access on the converted dense vector, which fails out of range. -/
def KVector.AtVec (kv : KVector) (idx : ℤ) : Except SymError K :=
  vecDenseAtVec (KVector.ToVecDense kv) idx

end Symbolic

namespace Symbolic

theorem toVecDense_eq (kv : KVector) : KVector.ToVecDense kv = kv := by
  simp [KVector.ToVecDense]

theorem vecDenseToKVector_eq (v : VecDense) : VecDenseToKVector v = v := by
  simp [VecDenseToKVector]

theorem addKVectors_eq (a b : KVector) :
    addKVectors a b = List.zipWith (fun x y => x + y) a b := by
  simp [addKVectors, vecAdd, toVecDense_eq, vecDenseToKVector_eq]

theorem zipWith_add_comm (a b : List ℚ) :
    List.zipWith (fun x y => x + y) a b = List.zipWith (fun x y => x + y) b a :=
  List.zipWith_comm_of_comm _ (fun x y => add_comm x y) a b

theorem zipWith_add_assoc (a b c : List ℚ) :
    List.zipWith (fun x y => x + y) (List.zipWith (fun x y => x + y) a b) c =
      List.zipWith (fun x y => x + y) a (List.zipWith (fun x y => x + y) b c) := by
  induction a generalizing b c with
  | nil => simp
  | cons x xs ih =>
    cases b with
    | nil => simp
    | cons y ys =>
      cases c with
      | nil => simp
      | cons z zs => simp [ih, add_assoc]

theorem zipWith_add_replicate_zero_right (a : List ℚ) :
    List.zipWith (fun x y => x + y) a (List.replicate a.length 0) = a := by
  induction a with
  | nil => simp
  | cons x xs ih => simp [List.replicate_succ, ih]

theorem zipWith_add_replicate_zero_left (a : List ℚ) :
    List.zipWith (fun x y => x + y) (List.replicate a.length 0) a = a := by
  induction a with
  | nil => simp
  | cons x xs ih => simp [List.replicate_succ, ih]

theorem sum_zipWith_mul_replicate_zero (n : ℕ) (x : List ℚ) :
    (List.zipWith (fun a b => a * b) (List.replicate n 0) x).sum = 0 := by
  induction n generalizing x with
  | zero => simp
  | succ m ih =>
    cases x with
    | nil => simp
    | cons y ys => simp [List.replicate_succ, ih]

theorem plus_kvector_eq (a b : KVector) (h : KVector.Len a = KVector.Len b) :
    KVector.Plus a (.kvector b) = .ok (.kvectorE (addKVectors a b)) := by
  rw [KVector.Plus]
  simp [guardCheck, KVector.Check, addGuards, ToExpression, CheckDimensionsInAddition,
        Expression.IsScalar, Expression.Len, h]

theorem len_addKVectors (a b : KVector) (h : KVector.Len a = KVector.Len b) :
    KVector.Len (addKVectors a b) = KVector.Len a := by
  simp only [KVector.Len] at h ⊢
  simp [addKVectors_eq, h]

/-- C10: Check on a KVector always reports no error, for the empty vector
included, so the panic-on-check-failure guard at the start of Plus, Multiply
and Comparison can never fire for a KVector receiver: the guard is the
identity on every continuation. -/
theorem kvector_check_always_none :
    (∀ kv : KVector, KVector.Check kv = none) ∧
    (∀ (A : Type) (kv : KVector) (k : Except SymError A),
      guardCheck (KVector.Check kv) k = k) :=
  ⟨fun _ => rfl, fun _ _ _ => rfl⟩

/-- C7: converting a KVector to its native dense-vector representation and
back reproduces the original values exactly, for every finite sequence. -/
theorem kvector_vecdense_roundtrip (kv : KVector) :
    VecDenseToKVector (KVector.ToVecDense kv) = kv := by
  simp [VecDenseToKVector, KVector.ToVecDense]

/-- C1: the linear coefficient matrix of a KVector of length N is the N by N
zero matrix, its constant is the vector itself, and therefore the affine
decomposition LinearCoeff times x plus Constant reproduces the vector
exactly for every assignment x to the global variable vector. -/
theorem kvector_linearCoeff_constant_affine_exact (kv : KVector) (x : VecDense)
    (hx : x.length = KVector.Len kv) :
    KVector.LinearCoeff kv = ZerosMatrix (KVector.Len kv) (KVector.Len kv) ∧
    KVector.Constant kv = KVector.ToVecDense kv ∧
    vecAdd (matVecMul (KVector.LinearCoeff kv) x) (KVector.Constant kv) = kv := by
  refine ⟨rfl, rfl, ?_⟩
  simp only [KVector.LinearCoeff, KVector.Constant, ZerosMatrix, matVecMul, vecAdd,
    toVecDense_eq, List.map_replicate, sum_zipWith_mul_replicate_zero]
  simpa [KVector.Len] using zipWith_add_replicate_zero_left kv

theorem kvector_linearCoeff_constant_affine_exact_witness :
    ([5, 7] : VecDense).length = KVector.Len ([2, 3] : KVector) ∧
    (KVector.LinearCoeff [2, 3] = ZerosMatrix (KVector.Len ([2, 3] : KVector)) (KVector.Len ([2, 3] : KVector)) ∧
     KVector.Constant [2, 3] = KVector.ToVecDense [2, 3] ∧
     vecAdd (matVecMul (KVector.LinearCoeff [2, 3]) [5, 7]) (KVector.Constant [2, 3]) = [2, 3]) :=
  ⟨by decide, kvector_linearCoeff_constant_affine_exact [2, 3] [5, 7] (by decide)⟩

end Symbolic

namespace Symbolic

/-- C8: KVector addition through Plus is commutative and associative under
elementwise exact numeric addition, and adding the zero vector of matching
length through Plus is the identity. -/
theorem kvector_plus_comm_assoc_zero (a b c : KVector)
    (hab : KVector.Len a = KVector.Len b) (hbc : KVector.Len b = KVector.Len c) :
    KVector.Plus a (.kvector b) = KVector.Plus b (.kvector a) ∧
    KVector.Plus a (.kvector b) = .ok (.kvectorE (addKVectors a b)) ∧
    KVector.Plus (addKVectors a b) (.kvector c) =
      KVector.Plus a (.kvector (addKVectors b c)) ∧
    KVector.Plus a (.kvector (VecDenseToKVector (ZerosVector (KVector.Len a)))) =
      .ok (.kvectorE a) := by
  have hz : KVector.Len (VecDenseToKVector (ZerosVector (KVector.Len a))) = KVector.Len a := by
    simp [VecDenseToKVector, ZerosVector, KVector.Len]
  refine ⟨?_, plus_kvector_eq a b hab, ?_, ?_⟩
  · rw [plus_kvector_eq a b hab, plus_kvector_eq b a hab.symm,
      addKVectors_eq, addKVectors_eq, zipWith_add_comm]
  · have h1 : KVector.Len (addKVectors a b) = KVector.Len c := by
      rw [len_addKVectors a b hab, hab, hbc]
    have h2 : KVector.Len a = KVector.Len (addKVectors b c) := by
      rw [len_addKVectors b c hbc, hab]
    rw [plus_kvector_eq _ _ h1, plus_kvector_eq _ _ h2,
      addKVectors_eq, addKVectors_eq, addKVectors_eq, addKVectors_eq,
      zipWith_add_assoc]
  · rw [plus_kvector_eq _ _ hz.symm, addKVectors_eq, vecDenseToKVector_eq]
    simp only [ZerosVector, KVector.Len]
    rw [zipWith_add_replicate_zero_right]

theorem kvector_plus_comm_assoc_zero_witness :
    KVector.Plus [1, 2] (.kvector [3, 4]) = KVector.Plus [3, 4] (.kvector [1, 2]) ∧
    KVector.Plus [1, 2] (.kvector [3, 4]) = .ok (.kvectorE (addKVectors [1, 2] [3, 4])) ∧
    KVector.Plus (addKVectors [1, 2] [3, 4]) (.kvector [5, 6]) =
      KVector.Plus [1, 2] (.kvector (addKVectors [3, 4] [5, 6])) ∧
    KVector.Plus [1, 2] (.kvector (VecDenseToKVector (ZerosVector (KVector.Len ([1, 2] : KVector))))) =
      .ok (.kvectorE [1, 2]) :=
  kvector_plus_comm_assoc_zero [1, 2] [3, 4] [5, 6] (by decide) (by decide)

/-- C3: adding two vector expressions of differing lengths fails with a
DimensionError recording operation "Plus" and both original operands, with
no partial result: shown for a KVector receiver with a KVector operand and
with a VariableVector operand, and for a valid VariableVector receiver with
a VariableVector operand. -/
theorem plus_length_mismatch_dimension_error :
    (∀ a b : KVector, KVector.Len a ≠ KVector.Len b →
      KVector.Plus a (.kvector b) =
        .error (.dimensionError "Plus" (.kvectorE a) (.kvectorE b))) ∧
    (∀ (a : KVector) (vv : VariableVector), KVector.Len a ≠ VariableVector.Len vv →
      KVector.Plus a (.varvec vv) =
        .error (.dimensionError "Plus" (.kvectorE a) (.varvecE vv))) ∧
    (∀ vv1 vv2 : VariableVector, VariableVector.Check vv1 = none →
      VariableVector.Len vv1 ≠ VariableVector.Len vv2 →
      VariableVector.Plus vv1 (.varvec vv2) =
        .error (.dimensionError "Plus" (.varvecE vv1) (.varvecE vv2))) := by
  refine ⟨?_, ?_, ?_⟩
  · intro a b h
    rw [KVector.Plus]
    simp [guardCheck, KVector.Check, addGuards, ToExpression, CheckDimensionsInAddition,
      Expression.IsScalar, Expression.Len, h]
  · intro a vv h
    rw [KVector.Plus]
    simp [guardCheck, KVector.Check, addGuards, ToExpression, CheckDimensionsInAddition,
      Expression.IsScalar, Expression.Len, h]
  · intro vv1 vv2 hc h
    rw [VariableVector.Plus]
    simp [guardCheck, hc, addGuards, ToExpression, CheckDimensionsInAddition,
      Expression.IsScalar, Expression.Len, h]

theorem plus_length_mismatch_dimension_error_witness :
    KVector.Plus [1, 2] (.kvector [3]) =
      .error (.dimensionError "Plus" (.kvectorE [1, 2]) (.kvectorE [3])) ∧
    KVector.Plus [1, 2] (.varvec ⟨[⟨1⟩]⟩) =
      .error (.dimensionError "Plus" (.kvectorE [1, 2]) (.varvecE ⟨[⟨1⟩]⟩)) ∧
    VariableVector.Plus ⟨[⟨1⟩, ⟨2⟩]⟩ (.varvec ⟨[⟨3⟩]⟩) =
      .error (.dimensionError "Plus" (.varvecE ⟨[⟨1⟩, ⟨2⟩]⟩) (.varvecE ⟨[⟨3⟩]⟩)) :=
  ⟨plus_length_mismatch_dimension_error.1 [1, 2] [3] (by decide),
   plus_length_mismatch_dimension_error.2.1 [1, 2] ⟨[⟨1⟩]⟩ (by decide),
   plus_length_mismatch_dimension_error.2.2 ⟨[⟨1⟩, ⟨2⟩]⟩ ⟨[⟨3⟩]⟩ (by decide) (by decide)⟩

/-- C9: when Plus on a KVector receives a more complex vector operand of
equal length it delegates to that operand with the arguments swapped, so the
result is exactly the delegated call. -/
theorem kvector_plus_delegates (kv : KVector) :
    (∀ vv : VariableVector, KVector.Len kv = VariableVector.Len vv →
      KVector.Plus kv (.varvec vv) = VariableVector.Plus vv (.kvector kv)) ∧
    (∀ mv : MonomialVector, KVector.Len kv = mv.length →
      KVector.Plus kv (.monvec mv) = MonomialVector.Plus mv (.kvector kv)) ∧
    (∀ pv : PolynomialVector, KVector.Len kv = pv.length →
      KVector.Plus kv (.polyvec pv) = PolynomialVector.Plus pv (.kvector kv)) := by
  refine ⟨?_, ?_, ?_⟩
  · intro vv h
    rw [KVector.Plus]
    simp [guardCheck, KVector.Check, addGuards, ToExpression, CheckDimensionsInAddition,
      Expression.IsScalar, Expression.Len, h]
  · intro mv h
    rw [KVector.Plus]
    simp [guardCheck, KVector.Check, addGuards, ToExpression, CheckDimensionsInAddition,
      Expression.IsScalar, Expression.Len, h]
  · intro pv h
    rw [KVector.Plus]
    simp [guardCheck, KVector.Check, addGuards, ToExpression, CheckDimensionsInAddition,
      Expression.IsScalar, Expression.Len, h]

theorem kvector_plus_delegates_witness :
    KVector.Plus [1, 2] (.varvec ⟨[⟨1⟩, ⟨2⟩]⟩) =
      VariableVector.Plus ⟨[⟨1⟩, ⟨2⟩]⟩ (.kvector [1, 2]) ∧
    KVector.Plus [1, 2] (.monvec [⟨2, []⟩, ⟨3, []⟩]) =
      MonomialVector.Plus [⟨2, []⟩, ⟨3, []⟩] (.kvector [1, 2]) ∧
    KVector.Plus [1, 2] (.polyvec [[⟨1, []⟩], [⟨2, []⟩]]) =
      PolynomialVector.Plus [[⟨1, []⟩], [⟨2, []⟩]] (.kvector [1, 2]) :=
  ⟨(kvector_plus_delegates [1, 2]).1 ⟨[⟨1⟩, ⟨2⟩]⟩ (by decide),
   (kvector_plus_delegates [1, 2]).2.1 [⟨2, []⟩, ⟨3, []⟩] (by decide),
   (kvector_plus_delegates [1, 2]).2.2 [[⟨1, []⟩], [⟨2, []⟩]] (by decide)⟩

/-- C6: multiplying a KVector by a scalar, given as a raw float64 or as a K,
returns a KVector of the same length whose entries are each scaled by the
scalar. -/
theorem kvector_scalar_multiply (kv : KVector) (c : ℚ) :
    KVector.Multiply kv (.float c) = .ok (.kvectorE (kv.map (fun x => c * x))) ∧
    KVector.Multiply kv (.k c) = .ok (.kvectorE (kv.map (fun x => c * x))) ∧
    (kv.map (fun x => c * x)).length = KVector.Len kv ∧
    ∀ i : ℕ, (kv.map (fun x => c * x))[i]? = Option.map (fun x => c * x) kv[i]? := by
  have h1 : KVector.Multiply kv (.float c) = .ok (.kvectorE (kv.map (fun x => c * x))) := by
    rw [KVector.Multiply]
    simp [guardCheck, KVector.Check, multiplyGuards, ToExpression,
      CheckDimensionsInMultiplication, scaleVec, toVecDense_eq, vecDenseToKVector_eq]
  have h2 : KVector.Multiply kv (.k c) = .ok (.kvectorE (kv.map (fun x => c * x))) := by
    rw [KVector.Multiply]
    simp [guardCheck, KVector.Check, multiplyGuards, ToExpression,
      CheckDimensionsInMultiplication]
    exact h1
  exact ⟨h1, h2, by simp [KVector.Len], fun i => by simp⟩

/-- C4: multiplying a KVector by a vector operand, whether a KVector or a
VariableVector, fails with the descriptive error of the source branch whose
message ends with the suggestion to transpose one of the operands, and no
result is produced. -/
theorem kvector_multiply_vector_rejected (kv : KVector) :
    (∀ rhs : KVector,
      KVector.Multiply kv (.kvector rhs) = .error (.genericError kvTimesKVectorMsg)) ∧
    (∀ vv : VariableVector,
      KVector.Multiply kv (.varvec vv) = .error (.genericError kvTimesVarVectorMsg)) ∧
    kvTimesKVectorMsg =
      "dimension mismatch! Cannot multiply KVector with a vector of type symbolic.KVector"
        ++ "; Try transposing one or the other!" ∧
    kvTimesVarVectorMsg =
      "dimension mismatch! Cannot multiply KVector with a vector of type symbolic.VariableVector"
        ++ "; Try transposing one or the other!" := by
  refine ⟨?_, ?_, by decide, by decide⟩
  · intro rhs
    rw [KVector.Multiply]
    simp [guardCheck, KVector.Check, multiplyGuards, ToExpression,
      CheckDimensionsInMultiplication]
  · intro vv
    rw [KVector.Multiply]
    simp [guardCheck, KVector.Check, multiplyGuards, ToExpression,
      CheckDimensionsInMultiplication]

/-- C5: element access on a KVector fails for an index outside the bounds of
the vector (the empty guard in the source falls through to the library
access, which fails out of range) and returns the stored scalar constant at
every index inside the bounds. -/
theorem kvector_atvec_spec (kv : KVector) (idx : ℤ) :
    (idx < 0 ∨ (KVector.Len kv : ℤ) ≤ idx →
      KVector.AtVec kv idx = .error (.genericError "mat: row access out of bounds")) ∧
    (0 ≤ idx → idx < (KVector.Len kv : ℤ) →
      KVector.AtVec kv idx = .ok (kv.getD idx.toNat 0)) := by
  simp only [KVector.Len]
  constructor
  · intro h
    rw [KVector.AtVec, vecDenseAtVec, toVecDense_eq, if_neg]
    omega
  · intro h1 h2
    rw [KVector.AtVec, vecDenseAtVec, toVecDense_eq, if_pos]
    omega

theorem kvector_atvec_spec_witness :
    KVector.AtVec [3, 4] 5 = .error (.genericError "mat: row access out of bounds") ∧
    KVector.AtVec [3, 4] 1 = .ok (([3, 4] : KVector).getD (1 : ℤ).toNat 0) :=
  ⟨(kvector_atvec_spec [3, 4] 5).1 (by decide),
   (kvector_atvec_spec [3, 4] 1).2 (by decide) (by decide)⟩

/-- C2 counterexample: at the concrete receiver [1], VariableVector operand
of one valid variable and sense less-than-equal, Comparison returns the
constraint with the VariableVector recorded as LeftHandSide and the
receiver as RightHandSide, so the constraint does not record the receiver
as LeftHandSide as the claim states. -/
theorem kvector_comparison_left_side_swapped_cex :
    KVector.Comparison [1] (.varvec ⟨[⟨1⟩]⟩) .SenseLessThanEqual =
      .ok ⟨.varvecE ⟨[⟨1⟩]⟩, .kvectorE [1], .SenseLessThanEqual⟩ ∧
    ¬ KVector.Comparison [1] (.varvec ⟨[⟨1⟩]⟩) .SenseLessThanEqual =
      .ok ⟨.kvectorE [1], .varvecE ⟨[⟨1⟩]⟩, .SenseLessThanEqual⟩ := by
  decide

/-- C2 as amended: for a KVector operand of equal length, Comparison records
the receiver as LeftHandSide, the operand as RightHandSide and the given
sense; for a valid VariableVector operand of equal length, Comparison
delegates to the operand with the arguments swapped, recording the operand
as LeftHandSide and the receiver as RightHandSide with the unchanged sense.
In both cases only a data record is produced, never a truth value. -/
theorem kvector_comparison_records (kv : KVector) (sense : ConstrSense) :
    (∀ rhs : KVector, KVector.Len kv = KVector.Len rhs →
      KVector.Comparison kv (.kvector rhs) sense =
        .ok ⟨.kvectorE kv, .kvectorE rhs, sense⟩) ∧
    (∀ vv : VariableVector, KVector.Len kv = VariableVector.Len vv →
      VariableVector.Check vv = none →
      KVector.Comparison kv (.varvec vv) sense =
        VariableVector.Comparison vv (.kvector kv) sense ∧
      KVector.Comparison kv (.varvec vv) sense =
        .ok ⟨.varvecE vv, .kvectorE kv, sense⟩) := by
  constructor
  · intro rhs h
    rw [KVector.Comparison]
    simp [guardCheck, KVector.Check, comparisonGuards, ToExpression, Expression.Check,
      CheckDimensionsInComparison, Expression.IsScalar, Expression.Len, h]
  · intro vv h hc
    have hdel : KVector.Comparison kv (.varvec vv) sense =
        VariableVector.Comparison vv (.kvector kv) sense := by
      rw [KVector.Comparison]
      simp [guardCheck, KVector.Check, comparisonGuards, ToExpression, Expression.Check,
        CheckDimensionsInComparison, Expression.IsScalar, Expression.Len, h, hc]
    refine ⟨hdel, ?_⟩
    rw [hdel, VariableVector.Comparison]
    simp [guardCheck, hc, comparisonGuards, ToExpression, Expression.Check, KVector.Check,
      CheckDimensionsInComparison, Expression.IsScalar, Expression.Len, h]

theorem kvector_comparison_records_witness :
    KVector.Comparison [2] (.kvector [3]) .SenseEqual =
      .ok ⟨.kvectorE [2], .kvectorE [3], .SenseEqual⟩ ∧
    (KVector.Comparison [2] (.varvec ⟨[⟨1⟩]⟩) .SenseEqual =
      VariableVector.Comparison ⟨[⟨1⟩]⟩ (.kvector [2]) .SenseEqual ∧
     KVector.Comparison [2] (.varvec ⟨[⟨1⟩]⟩) .SenseEqual =
      .ok ⟨.varvecE ⟨[⟨1⟩]⟩, .kvectorE [2], .SenseEqual⟩) :=
  ⟨(kvector_comparison_records [2] .SenseEqual).1 [3] (by decide),
   (kvector_comparison_records [2] .SenseEqual).2 ⟨[⟨1⟩]⟩ (by decide) (by decide)⟩

end Symbolic
